import Mathlib

/-!
# Verification of SU2_EDU turbulence-variable and config-option code

Shallow embedding of `src/src/variable_direct_turbulent.cpp` and the
option classes of `src/include/option_structure.hpp`, with theorems
checking the natural-language specification against the code.

C++ `double` values are modelled as real numbers (`ℝ`); heap arrays of
fixed logical length are modelled as Lean lists, and indexed writes to
arrays whose contents beyond the written cells are irrelevant are
modelled as function update on `ℕ → ℝ`.  A C++ `NULL` array pointer is
modelled as `Option.none`.
-/

namespace SU2

/- ------------------------------------------------------------------ -/
/- Turbulence variable classes (src/src/variable_direct_turbulent.cpp) -/
/- ------------------------------------------------------------------ -/

/-- Per-point state of `CTurbVariable` (fields inherited from `CVariable`
plus the eddy viscosity `muT`).  The spatial dimension `nDim` is fixed at
construction for every point of a run, so it is a type parameter.
`Solution`, `Solution_Old` and `Gradient` are allocated by the `CVariable`
base constructor (not part of `src/`), so they are modelled as total
functions whose initial contents are arbitrary. -/
structure CTurbVariable (nDim : ℕ) where
  Solution : ℕ → ℝ
  Solution_Old : ℕ → ℝ
  Gradient : ℕ → ℕ → ℝ
  Limiter : List ℝ
  Solution_Max : List ℝ
  Solution_Min : List ℝ
  muT : ℝ

/-- State of `CTurbSSTVariable`: the base fields plus the SST blending
data (lines 97-119 read/write these fields). -/
structure CTurbSSTVariable (nDim : ℕ) extends CTurbVariable nDim where
  F1 : ℝ
  F2 : ℝ
  CDkw : ℝ
  sigma_om2 : ℝ
  beta_star : ℝ

/-- State of `CTurbSAVariable` (no extra fields used by the claims). -/
structure CTurbSAVariable (nDim : ℕ) extends CTurbVariable nDim

/-- `CTurbVariable::CTurbVariable(val_nDim, val_nVar, config)`
(lines 29-46): allocates `Limiter`, `Solution_Max`, `Solution_Min` of
length `nVar` and zero-initializes every entry.  `base` is the state
left by the `CVariable` base constructor. -/
def CTurbVariable.construct {nDim : ℕ} (base : CTurbVariable nDim)
    (nVar : ℕ) : CTurbVariable nDim :=
  { base with
    Limiter := List.replicate nVar 0
    Solution_Max := List.replicate nVar 0
    Solution_Min := List.replicate nVar 0 }

/-- `CTurbVariable::GetmuT()` (line 52). -/
def CTurbVariable.GetmuT {nDim : ℕ} (s : CTurbVariable nDim) : ℝ := s.muT

/-- `CTurbSAVariable::CTurbSAVariable(val_nu_tilde, val_muT, val_nDim,
val_nVar, config)` (lines 58-67): runs the `CTurbVariable` constructor,
then sets `Solution[0] = Solution_Old[0] = val_nu_tilde` and
`muT = val_muT`. -/
def CTurbSAVariable.construct {nDim : ℕ} (base : CTurbVariable nDim)
    (val_nu_tilde val_muT : ℝ) (nVar : ℕ) : CTurbSAVariable nDim :=
  let b := base.construct nVar
  { toCTurbVariable :=
      { b with
        Solution := Function.update b.Solution 0 val_nu_tilde
        Solution_Old := Function.update b.Solution_Old 0 val_nu_tilde
        muT := val_muT } }

/-- `CTurbSSTVariable::CTurbSSTVariable(val_kine, val_omega, val_muT,
val_nDim, val_nVar, constants, config)` (lines 75-93): runs the
`CTurbVariable` constructor, then sets `Solution[0] = Solution_Old[0] =
val_kine`, `Solution[1] = Solution_Old[1] = val_omega`,
`sigma_om2 = constants[3]`, `beta_star = constants[6]`, `F1 = 1.0`,
`F2 = 0.0`, `CDkw = 0.0`, `muT = val_muT`. -/
def CTurbSSTVariable.construct {nDim : ℕ} (base : CTurbVariable nDim)
    (val_kine val_omega val_muT : ℝ) (nVar : ℕ) (constants : ℕ → ℝ) :
    CTurbSSTVariable nDim :=
  let b := base.construct nVar
  { toCTurbVariable :=
      { b with
        Solution :=
          Function.update (Function.update b.Solution 0 val_kine) 1 val_omega
        Solution_Old :=
          Function.update (Function.update b.Solution_Old 0 val_kine) 1 val_omega
        muT := val_muT }
    F1 := 1
    F2 := 0
    CDkw := 0
    sigma_om2 := constants 3
    beta_star := constants 6 }

/-- `CTurbSSTVariable::SetBlendingFunc(val_viscosity, val_dist,
val_density)` (lines 97-119), transcribed expression by expression:

    CDkw = Σ_{iDim<nDim} Gradient[0][iDim]*Gradient[1][iDim]
    CDkw *= 2.0*val_density*sigma_om2/Solution[1]
    CDkw = max(CDkw, pow(10.0,-20.0))
    arg2A = sqrt(Solution[0])/(beta_star*Solution[1]*val_dist)
    arg2B = 500.0*val_viscosity/(val_density*val_dist*val_dist*Solution[1])
    arg1  = min(max(arg2A,arg2B),
                4.0*val_density*sigma_om2*Solution[0]/(CDkw*val_dist*val_dist))
    F1    = tanh(arg1*arg1*arg1*arg1)
    F2    = tanh(max(2.0*arg2A,arg2B)^2) -/
noncomputable def CTurbSSTVariable.SetBlendingFunc {nDim : ℕ}
    (s : CTurbSSTVariable nDim)
    (val_viscosity val_dist val_density : ℝ) : CTurbSSTVariable nDim :=
  let CDkw0 : ℝ :=
    ∑ iDim ∈ Finset.range nDim, s.Gradient 0 iDim * s.Gradient 1 iDim
  let CDkw1 : ℝ := CDkw0 * (2 * val_density * s.sigma_om2 / s.Solution 1)
  let CDkw2 : ℝ := max CDkw1 ((10 : ℝ) ^ (-20 : ℝ))
  let arg2A : ℝ :=
    Real.sqrt (s.Solution 0) / (s.beta_star * s.Solution 1 * val_dist)
  let arg2B : ℝ :=
    500 * val_viscosity / (val_density * val_dist * val_dist * s.Solution 1)
  let arg2 : ℝ := max arg2A arg2B
  let arg1 : ℝ :=
    min arg2 (4 * val_density * s.sigma_om2 * s.Solution 0 /
      (CDkw2 * val_dist * val_dist))
  let F1new : ℝ := Real.tanh (arg1 * arg1 * arg1 * arg1)
  let arg2F2 : ℝ := max (2 * arg2A) arg2B
  let F2new : ℝ := Real.tanh (arg2F2 * arg2F2)
  { s with F1 := F1new, F2 := F2new, CDkw := CDkw2 }

/-- The divisors of the four divisions performed by `SetBlendingFunc`,
in evaluation order: line 105 divides by `Solution[1]`, line 109 by
`beta_star*Solution[1]*val_dist`, line 110 by
`val_density*val_dist*val_dist*Solution[1]`, and line 112 by
`CDkw*val_dist*val_dist` where `CDkw` is the clamped value of line 106. -/
noncomputable def CTurbSSTVariable.SetBlendingFuncDivisors {nDim : ℕ}
    (s : CTurbSSTVariable nDim)
    (val_viscosity val_dist val_density : ℝ) : List ℝ :=
  let CDkw0 : ℝ :=
    ∑ iDim ∈ Finset.range nDim, s.Gradient 0 iDim * s.Gradient 1 iDim
  let CDkw2 : ℝ :=
    max (CDkw0 * (2 * val_density * s.sigma_om2 / s.Solution 1))
      ((10 : ℝ) ^ (-20 : ℝ))
  [s.Solution 1,
   s.beta_star * s.Solution 1 * val_dist,
   val_density * val_dist * val_dist * s.Solution 1,
   CDkw2 * val_dist * val_dist]

/-- A concrete SST state used to witness theorems with hypotheses. -/
def sstExample : CTurbSSTVariable 2 :=
  { Solution := fun _ => 1
    Solution_Old := fun _ => 1
    Gradient := fun _ _ => 1
    Limiter := []
    Solution_Max := []
    Solution_Min := []
    muT := 1
    F1 := 1
    F2 := 0
    CDkw := 0
    sigma_om2 := 1
    beta_star := 1 }

/-- C8: after `CTurbSSTVariable`'s constructor, `Solution[0] =
Solution_Old[0] = val_kine`, `Solution[1] = Solution_Old[1] = val_omega`,
`muT = val_muT` (so `GetmuT()` returns `val_muT`), `F1 = 1.0`, `F2 = 0.0`,
`CDkw = 0.0`, `sigma_om2 = constants[3]`, `beta_star = constants[6]`;
after `CTurbSAVariable`'s constructor, `Solution[0] = Solution_Old[0] =
val_nu_tilde` and `muT = val_muT`; current and old solutions agree at
construction. -/
theorem sst_sa_constructor_inits {nDim : ℕ} (base baseSA : CTurbVariable nDim)
    (val_kine val_omega val_muT val_nu_tilde val_muT2 : ℝ) (nVar : ℕ)
    (constants : ℕ → ℝ) :
    (CTurbSSTVariable.construct base val_kine val_omega val_muT nVar
        constants).Solution 0 = val_kine ∧
    (CTurbSSTVariable.construct base val_kine val_omega val_muT nVar
        constants).Solution_Old 0 = val_kine ∧
    (CTurbSSTVariable.construct base val_kine val_omega val_muT nVar
        constants).Solution 1 = val_omega ∧
    (CTurbSSTVariable.construct base val_kine val_omega val_muT nVar
        constants).Solution_Old 1 = val_omega ∧
    (CTurbSSTVariable.construct base val_kine val_omega val_muT nVar
        constants).muT = val_muT ∧
    (CTurbSSTVariable.construct base val_kine val_omega val_muT nVar
        constants).toCTurbVariable.GetmuT = val_muT ∧
    (CTurbSSTVariable.construct base val_kine val_omega val_muT nVar
        constants).F1 = 1 ∧
    (CTurbSSTVariable.construct base val_kine val_omega val_muT nVar
        constants).F2 = 0 ∧
    (CTurbSSTVariable.construct base val_kine val_omega val_muT nVar
        constants).CDkw = 0 ∧
    (CTurbSSTVariable.construct base val_kine val_omega val_muT nVar
        constants).sigma_om2 = constants 3 ∧
    (CTurbSSTVariable.construct base val_kine val_omega val_muT nVar
        constants).beta_star = constants 6 ∧
    (CTurbSAVariable.construct baseSA val_nu_tilde val_muT2 nVar).Solution 0
        = val_nu_tilde ∧
    (CTurbSAVariable.construct baseSA val_nu_tilde val_muT2 nVar).Solution_Old 0
        = val_nu_tilde ∧
    (CTurbSAVariable.construct baseSA val_nu_tilde val_muT2 nVar).muT
        = val_muT2 := by
  refine ⟨?_, ?_, ?_, ?_, ?_, ?_, ?_, ?_, ?_, ?_, ?_, ?_, ?_, ?_⟩ <;>
    simp [CTurbSSTVariable.construct, CTurbSAVariable.construct,
      CTurbVariable.construct, CTurbVariable.GetmuT, Function.update_apply]

/-- C9: `CTurbVariable`'s constructor gives `Limiter`, `Solution_Max` and
`Solution_Min` length `nVar` and zero-initializes every entry (checked
against the off-default value 1 of `getD`). -/
theorem turb_constructor_limiter_zero {nDim : ℕ} (base : CTurbVariable nDim)
    (nVar : ℕ) :
    ((base.construct nVar).Limiter.length = nVar ∧
     (base.construct nVar).Solution_Max.length = nVar ∧
     (base.construct nVar).Solution_Min.length = nVar) ∧
    ∀ i, i < nVar →
      ((base.construct nVar).Limiter.getD i 1 = 0 ∧
       (base.construct nVar).Solution_Max.getD i 1 = 0 ∧
       (base.construct nVar).Solution_Min.getD i 1 = 0) := by
  constructor
  · refine ⟨?_, ?_, ?_⟩ <;> simp [CTurbVariable.construct]
  · intro i hi
    refine ⟨?_, ?_, ?_⟩ <;> simp [CTurbVariable.construct, List.getD, hi]

/-- Witness for `turb_constructor_limiter_zero` at `nVar = 2`, `i = 0`. -/
theorem turb_constructor_limiter_zero_witness :
    (0 < 2 ∧
      (sstExample.toCTurbVariable.construct 2).Limiter.getD 0 1 = 0) :=
  ⟨by norm_num,
   ((turb_constructor_limiter_zero sstExample.toCTurbVariable 2).2 0
      (by norm_num)).1⟩

/-- C2: under the preconditions `Solution[1] ≠ 0`, `val_dist ≠ 0`,
`val_density ≠ 0` and `beta_star ≠ 0`, every divisor used by
`SetBlendingFunc` is nonzero; in particular the clamped `CDkw` is at
least `10⁻²⁰ > 0`, so the `F1` division is safe even when the gradient
dot product is zero or negative. -/
theorem sst_blending_divisors_nonzero {nDim : ℕ} (s : CTurbSSTVariable nDim)
    (val_viscosity val_dist val_density : ℝ)
    (homega : s.Solution 1 ≠ 0) (hdist : val_dist ≠ 0)
    (hrho : val_density ≠ 0) (hbeta : s.beta_star ≠ 0) :
    ∀ x ∈ s.SetBlendingFuncDivisors val_viscosity val_dist val_density,
      x ≠ 0 := by
  intro x hx
  simp only [CTurbSSTVariable.SetBlendingFuncDivisors, List.mem_cons,
    List.not_mem_nil, or_false] at hx
  have hclamp : (0 : ℝ) <
      max ((∑ iDim ∈ Finset.range nDim,
              s.Gradient 0 iDim * s.Gradient 1 iDim) *
            (2 * val_density * s.sigma_om2 / s.Solution 1))
        ((10 : ℝ) ^ (-20 : ℝ)) :=
    lt_of_lt_of_le (Real.rpow_pos_of_pos (by norm_num) _) (le_max_right _ _)
  rcases hx with h | h | h | h <;> subst h
  · exact homega
  · exact mul_ne_zero (mul_ne_zero hbeta homega) hdist
  · exact mul_ne_zero (mul_ne_zero (mul_ne_zero hrho hdist) hdist) homega
  · exact mul_ne_zero (mul_ne_zero (ne_of_gt hclamp) hdist) hdist

/-- Witness for `sst_blending_divisors_nonzero` at a concrete state. -/
theorem sst_blending_divisors_nonzero_witness :
    (sstExample.Solution 1 ≠ 0 ∧ (1 : ℝ) ≠ 0 ∧
      sstExample.beta_star ≠ 0) ∧
    ∀ x ∈ sstExample.SetBlendingFuncDivisors 1 1 1, x ≠ 0 :=
  ⟨⟨by norm_num [sstExample], by norm_num, by norm_num [sstExample]⟩,
   sst_blending_divisors_nonzero sstExample 1 1 1
     (by norm_num [sstExample]) (by norm_num) (by norm_num)
     (by norm_num [sstExample])⟩

/-- C1: under the stated preconditions, `SetBlendingFunc` sets
`F2 = tanh(arg2²)` with
`arg2 = max(2√k/(β*·ω·d), 500μ/(ρ·d²·ω))`, and `F1 = tanh(arg1⁴)` with
`arg1 = min(max(√k/(β*·ω·d), 500μ/(ρ·d²·ω)), 4ρ·σω2·k/(CDkw·d²))` where
`CDkw = max(2ρ·σω2·(∇k·∇ω)/ω, 10⁻²⁰)`. -/
theorem sst_blending_formula {nDim : ℕ} (s : CTurbSSTVariable nDim)
    (val_viscosity val_dist val_density : ℝ)
    (hdist : 0 < val_dist) (hrho : 0 < val_density)
    (hk : 0 ≤ s.Solution 0) (homega : 0 < s.Solution 1) :
    (s.SetBlendingFunc val_viscosity val_dist val_density).F2 =
      Real.tanh
        ((max (2 * Real.sqrt (s.Solution 0) /
                 (s.beta_star * s.Solution 1 * val_dist))
              (500 * val_viscosity /
                 (val_density * val_dist ^ 2 * s.Solution 1))) ^ 2) ∧
    (s.SetBlendingFunc val_viscosity val_dist val_density).F1 =
      Real.tanh
        ((min (max (Real.sqrt (s.Solution 0) /
                      (s.beta_star * s.Solution 1 * val_dist))
                   (500 * val_viscosity /
                      (val_density * val_dist ^ 2 * s.Solution 1)))
              (4 * val_density * s.sigma_om2 * s.Solution 0 /
                 ((max (2 * val_density * s.sigma_om2 *
                          (∑ iDim ∈ Finset.range nDim,
                            s.Gradient 0 iDim * s.Gradient 1 iDim) /
                          s.Solution 1)
                       ((10 : ℝ) ^ (-20 : ℝ))) * val_dist ^ 2))) ^ 4) ∧
    (s.SetBlendingFunc val_viscosity val_dist val_density).CDkw =
      max (2 * val_density * s.sigma_om2 *
             (∑ iDim ∈ Finset.range nDim,
               s.Gradient 0 iDim * s.Gradient 1 iDim) /
             s.Solution 1)
        ((10 : ℝ) ^ (-20 : ℝ)) := by
  have eCD : 2 * val_density * s.sigma_om2 *
        (∑ iDim ∈ Finset.range nDim,
          s.Gradient 0 iDim * s.Gradient 1 iDim) / s.Solution 1 =
      (∑ iDim ∈ Finset.range nDim,
          s.Gradient 0 iDim * s.Gradient 1 iDim) *
        (2 * val_density * s.sigma_om2 / s.Solution 1) := by ring
  have e2A : 2 * Real.sqrt (s.Solution 0) /
        (s.beta_star * s.Solution 1 * val_dist) =
      2 * (Real.sqrt (s.Solution 0) /
        (s.beta_star * s.Solution 1 * val_dist)) := by ring
  have eB : 500 * val_viscosity /
        (val_density * val_dist ^ 2 * s.Solution 1) =
      500 * val_viscosity /
        (val_density * val_dist * val_dist * s.Solution 1) := by ring
  have eDen : ∀ M : ℝ,
      4 * val_density * s.sigma_om2 * s.Solution 0 / (M * val_dist ^ 2) =
      4 * val_density * s.sigma_om2 * s.Solution 0 /
        (M * val_dist * val_dist) := by
    intro M; ring_nf
  have e2 : ∀ a : ℝ, a ^ 2 = a * a := fun a => by ring
  have e4 : ∀ a : ℝ, a ^ 4 = a * a * a * a := fun a => by ring
  refine ⟨?_, ?_, ?_⟩
  · rw [e2, e2A, eB]
    rfl
  · rw [e4, eB, eCD, eDen]
    rfl
  · rw [eCD]
    rfl

/-- Witness for `sst_blending_formula` at a concrete state and inputs. -/
theorem sst_blending_formula_witness :
    ((0 : ℝ) < 1 ∧ (0 : ℝ) ≤ sstExample.Solution 0 ∧
      0 < sstExample.Solution 1) ∧
    (sstExample.SetBlendingFunc 1 1 1).CDkw =
      max (2 * 1 * sstExample.sigma_om2 *
             (∑ iDim ∈ Finset.range 2,
               sstExample.Gradient 0 iDim * sstExample.Gradient 1 iDim) /
             sstExample.Solution 1)
        ((10 : ℝ) ^ (-20 : ℝ)) :=
  ⟨⟨by norm_num, by norm_num [sstExample], by norm_num [sstExample]⟩,
   (sst_blending_formula sstExample 1 1 1 (by norm_num) (by norm_num)
      (by norm_num [sstExample]) (by norm_num [sstExample])).2.2⟩

/-- C3: `SetBlendingFunc` is deterministic and per-point pure: two states
of the same dimension with equal `Solution`, `Gradient`, `sigma_om2` and
`beta_star` give equal `F1`, `F2`, `CDkw` under equal arguments, and the
call changes no field other than `F1`, `F2`, `CDkw`. -/
theorem sst_blending_pure {nDim : ℕ} (s₁ s₂ : CTurbSSTVariable nDim)
    (val_viscosity val_dist val_density : ℝ)
    (hS : s₁.Solution = s₂.Solution) (hG : s₁.Gradient = s₂.Gradient)
    (hsig : s₁.sigma_om2 = s₂.sigma_om2)
    (hbeta : s₁.beta_star = s₂.beta_star) :
    ((s₁.SetBlendingFunc val_viscosity val_dist val_density).F1 =
        (s₂.SetBlendingFunc val_viscosity val_dist val_density).F1 ∧
     (s₁.SetBlendingFunc val_viscosity val_dist val_density).F2 =
        (s₂.SetBlendingFunc val_viscosity val_dist val_density).F2 ∧
     (s₁.SetBlendingFunc val_viscosity val_dist val_density).CDkw =
        (s₂.SetBlendingFunc val_viscosity val_dist val_density).CDkw) ∧
    ((s₁.SetBlendingFunc val_viscosity val_dist val_density).Solution =
        s₁.Solution ∧
     (s₁.SetBlendingFunc val_viscosity val_dist val_density).Solution_Old =
        s₁.Solution_Old ∧
     (s₁.SetBlendingFunc val_viscosity val_dist val_density).Gradient =
        s₁.Gradient ∧
     (s₁.SetBlendingFunc val_viscosity val_dist val_density).muT =
        s₁.muT ∧
     (s₁.SetBlendingFunc val_viscosity val_dist val_density).Limiter =
        s₁.Limiter ∧
     (s₁.SetBlendingFunc val_viscosity val_dist val_density).Solution_Min =
        s₁.Solution_Min ∧
     (s₁.SetBlendingFunc val_viscosity val_dist val_density).Solution_Max =
        s₁.Solution_Max) := by
  constructor
  · refine ⟨?_, ?_, ?_⟩ <;>
      simp [CTurbSSTVariable.SetBlendingFunc, hS, hG, hsig, hbeta]
  · exact ⟨rfl, rfl, rfl, rfl, rfl, rfl, rfl⟩

/-- Witness for `sst_blending_pure` at a concrete state. -/
theorem sst_blending_pure_witness :
    (sstExample.SetBlendingFunc 1 1 1).CDkw =
      (sstExample.SetBlendingFunc 1 1 1).CDkw ∧
    (sstExample.SetBlendingFunc 1 1 1).muT = sstExample.muT :=
  ⟨((sst_blending_pure sstExample sstExample 1 1 1 rfl rfl rfl rfl).1).2.2,
   ((sst_blending_pure sstExample sstExample 1 1 1 rfl rfl rfl rfl).2).2.2.2.1⟩

/- ------------------------------------------------------------------ -/
/- Config option classes (src/include/option_structure.hpp)           -/
/- ------------------------------------------------------------------ -/

/-- A string of length 0 is the empty string. -/
theorem str_len_zero (b : String) (h : b.length = 0) : b = "" := by
  cases b with
  | mk data =>
    cases data with
    | nil => rfl
    | cons c cs => simp [String.length] at h

/-- Appending a nonempty string yields a nonempty string. -/
theorem str_append_ne (a b : String) (h : b ≠ "") : a ++ b ≠ "" := by
  intro he
  have hlen := congrArg String.length he
  simp [String.length_append] at hlen
  exact h (str_len_zero b hlen.2)

/-- `COptionBase::optionCheckMultipleValues` (lines 1055-1064): a
nonempty diagnostic exactly when the value list does not have exactly
one element. -/
def optionCheckMultipleValues (option_value : List String)
    (type_id option_name : String) : String :=
  if option_value.length ≠ 1 then
    option_name ++ ": multiple values for type " ++ type_id
  else ""

/-- `COptionBase::badValue` (lines 1066-1072). -/
def badValue (option_value : List String) (type_id option_name : String) :
    String :=
  option_name ++ ": improper option value for type " ++ type_id

/-- `COptionDouble::SetValue` (lines 1132-1145).  `istringstream >> val`
is modelled by the abstract token parser `parse`.  The result pairs the
new value of the referenced `field` with the returned message. -/
def COptionDouble.SetValue (parse : String → Option ℝ) (name : String)
    (field : ℝ) (option_value : List String) : ℝ × String :=
  let out := optionCheckMultipleValues option_value "double" name
  if out ≠ "" then (field, out)
  else
    match parse (option_value.headD "") with
    | some val => (val, "")
    | none => (field, badValue option_value "double" name)

/-- The error condition exactly as claim C5 words it: "v has more than
one element or its single element does not parse as a number". -/
def doubleClaimErrCond (parse : String → Option ℝ)
    (option_value : List String) : Prop :=
  1 < option_value.length ∨
    (option_value.length = 1 ∧ parse (option_value.headD "") = none)

/-- A C++ `double[3]`. -/
abbrev Vec3 := ℝ × ℝ × ℝ

/-- Componentwise scaling of a `double[3]` (`v[0] *= c; v[1] *= c;
v[2] *= c;`). -/
def vscale (c : ℝ) (v : Vec3) : Vec3 := (c * v.1, c * v.2.1, c * v.2.2)

/-- `PI_NUMBER` (line 125): `4.0*atan(1.0)`, which is exactly π in real
arithmetic. -/
noncomputable def PI_NUMBER : ℝ := 4 * Real.arctan 1

/-- State referenced by `COptionPeriodic` (lines 1980-1996): the marker
count and the five arrays; `none` models a `NULL` pointer. -/
structure PeriodicOptState where
  size : ℕ
  marker_bound : Option (List String)
  marker_donor : Option (List String)
  rot_center : Option (List Vec3)
  rot_angles : Option (List Vec3)
  translation : Option (List Vec3)

/-- The state written by the `NONE` path, the wrong-count path and
`SetDefault`: count 0 and all five arrays `NULL`. -/
def PeriodicOptState.null : PeriodicOptState :=
  ⟨0, none, none, none, none, none⟩

/-- The 11 tokens of periodic-marker group `i`
(`option_value[mod_num*i] .. option_value[mod_num*i+10]`). -/
def groupTokens (vals : List String) (i : ℕ) : List String :=
  (vals.drop (11 * i)).take 11

/-- Parses the nine numeric tokens (positions 2-10) of one group:
rotation center, raw angles in degrees, raw translation. -/
def parseNine (parse : String → Option ℝ) (g : List String) :
    Option (Vec3 × Vec3 × Vec3) := do
  let c0 ← parse (g.getD 2 "")
  let c1 ← parse (g.getD 3 "")
  let c2 ← parse (g.getD 4 "")
  let a0 ← parse (g.getD 5 "")
  let a1 ← parse (g.getD 6 "")
  let a2 ← parse (g.getD 7 "")
  let t0 ← parse (g.getD 8 "")
  let t1 ← parse (g.getD 9 "")
  let t2 ← parse (g.getD 10 "")
  pure ((c0, c1, c2), (a0, a1, a2), (t0, t1, t2))

/-- `COptionPeriodic::SetValue` (lines 1999-2139).  The single token
`NONE` succeeds with count 0 and `NULL` arrays; a count not divisible by
11 fails with the diagnostic and the same reset state; otherwise
`2*(count/11)` entries are built — the first half holds the parsed
values with the angles converted to radians, the second half swaps the
bound/donor names, keeps the center (`*= 1.0`), and negates angles
(`*= -deg2rad`) and translation (`*= -1.0`).  A failed numeric read
returns `badValue` early, leaving the freshly allocated arrays partially
written and partially uninitialized; those indeterminate contents are
modelled by the defaults of `Option.getD` (`""` and `0`). -/
noncomputable def COptionPeriodic.SetValue (parse : String → Option ℝ)
    (name : String) (option_value : List String) :
    PeriodicOptState × String :=
  if option_value.length = 1 ∧ option_value.headD "" = "NONE" then
    (PeriodicOptState.null, "")
  else if option_value.length % 11 ≠ 0 then
    (PeriodicOptState.null,
     name ++ ": must have a number of entries divisible by 11")
  else
    let k := option_value.length / 11
    let deg2rad := PI_NUMBER / 180
    let bound := fun i => (groupTokens option_value i).getD 0 ""
    let donor := fun i => (groupTokens option_value i).getD 1 ""
    let nums := fun i =>
      (parseNine parse (groupTokens option_value i)).getD
        ((0, 0, 0), (0, 0, 0), (0, 0, 0))
    let st : PeriodicOptState :=
      { size := 2 * k
        marker_bound :=
          some ((List.range k).map bound ++ (List.range k).map donor)
        marker_donor :=
          some ((List.range k).map donor ++ (List.range k).map bound)
        rot_center :=
          some ((List.range k).map (fun i => (nums i).1) ++
            (List.range k).map (fun i => (nums i).1))
        rot_angles :=
          some ((List.range k).map (fun i => vscale deg2rad (nums i).2.1) ++
            (List.range k).map (fun i => vscale (-deg2rad) (nums i).2.1))
        translation :=
          some ((List.range k).map (fun i => (nums i).2.2) ++
            (List.range k).map (fun i => vscale (-1) (nums i).2.2)) }
    if (List.range k).all
        (fun i => (parseNine parse (groupTokens option_value i)).isSome) then
      (st, "")
    else
      (st, badValue option_value "periodic" name)

/-- Modelled from the spec: the per-marker periodic transform applied by
the halo-exchange/boundary code, whose implementation is not under
`src/` (only declarations in `solver_structure.hpp`).  Per §4.1 and §8,
vector quantities are rotated about the rotation center by the three
stored angles — successive rotations about the x, y and z axes — and
then translated.  `rotX` is the x-axis rotation. -/
noncomputable def rotX (a : ℝ) (v : Vec3) : Vec3 :=
  (v.1,
   Real.cos a * v.2.1 - Real.sin a * v.2.2,
   Real.sin a * v.2.1 + Real.cos a * v.2.2)

/-- Modelled from the spec (see `rotX`): the y-axis rotation. -/
noncomputable def rotY (a : ℝ) (v : Vec3) : Vec3 :=
  (Real.cos a * v.1 + Real.sin a * v.2.2,
   v.2.1,
   -Real.sin a * v.1 + Real.cos a * v.2.2)

/-- Modelled from the spec (see `rotX`): the z-axis rotation. -/
noncomputable def rotZ (a : ℝ) (v : Vec3) : Vec3 :=
  (Real.cos a * v.1 - Real.sin a * v.2.1,
   Real.sin a * v.1 + Real.cos a * v.2.1,
   v.2.2)

/-- Modelled from the spec (see `rotX`): the composite rotation by the
three stored angles. -/
noncomputable def rotVec (angles : Vec3) (v : Vec3) : Vec3 :=
  rotZ angles.2.2 (rotY angles.2.1 (rotX angles.1 v))

/-- Modelled from the spec (see `rotX`): rotation about the center
followed by the translation. -/
noncomputable def periodicTransform (center angles trans x : Vec3) :
    Vec3 :=
  rotVec angles (x - center) + center + trans

/-- The rotation is about a single coordinate axis: at most one of the
three stored angles is nonzero. -/
def singleAxis (a : Vec3) : Prop :=
  (a.1 = 0 ∧ a.2.1 = 0) ∨ (a.1 = 0 ∧ a.2.2 = 0) ∨ (a.2.1 = 0 ∧ a.2.2 = 0)

/-- State referenced by `CMarkerOptionRef` (lines 2548-2551). -/
structure MarkerRefState where
  marker : Option (List String)
  num_marker : ℕ

/-- `CMarkerOptionRef::SetValue` (lines 2570-2586): an empty value list
prints a diagnostic and throws (`throw(-1)` is modelled as a `some`
message in the second component, with the state as left at the throw);
otherwise the marker array is reallocated with the values and the count
is 0 for the single token `NONE`, else the list length. -/
def CMarkerOptionRef.SetValue (s : MarkerRefState) (value : List String) :
    MarkerRefState × Option String :=
  if value.length = 0 then
    (s, some ("Error in CMarkerOptionRef::SetValue(): " ++
      "marker option in config file with no value"))
  else
    ({ marker := some value
       num_marker :=
         if value.length = 1 ∧ value.headD "" = "NONE" then 0
         else value.length }, none)

/-- State referenced by `CMarkerPeriodicRef` (lines 2604-2610). -/
structure MarkerPeriodicRefState where
  nMarker_PerBound : ℕ
  Marker_PerBound : Option (List String)
  Marker_PerDonor : Option (List String)
  Periodic_RotCenter : Option (List Vec3)
  Periodic_RotAngles : Option (List Vec3)
  Periodic_Translation : Option (List Vec3)

/-- `CMarkerPeriodicRef::SetValue` (lines 2643-2706): throws if any of
the five arrays is already allocated; if the entry count is not
divisible by 11 it either accepts (count 0) when the FIRST entry is
`NONE`, or prints and throws; otherwise it reads `count/11` groups of 11
tokens with no failure check on the numeric reads (a failed read, which
in C++ leaves the stream failed and the target indeterminate, is
modelled as the default 0) and converts the angles to radians. -/
noncomputable def CMarkerPeriodicRef.SetValue (parse : String → Option ℝ)
    (s : MarkerPeriodicRefState) (value : List String) :
    MarkerPeriodicRefState × Option String :=
  if s.Marker_PerBound.isSome ∨ s.Marker_PerDonor.isSome ∨
      s.Periodic_RotCenter.isSome ∨ s.Periodic_RotAngles.isSome ∨
      s.Periodic_Translation.isSome then
    (s, some ("Error in CMarkerPeriodicRef::SetValue(): " ++
      "one or more periodic-marker option arrays have already been allocated."))
  else if value.length % 11 ≠ 0 then
    if value.headD "" = "NONE" then
      ({ s with nMarker_PerBound := 0 }, none)
    else
      (s, some ("Error in CMarkerPeriodicRef::SetValue(): " ++
        "incorrect number of MARKER_PERIODIC parameters in the configuration file."))
  else
    let n := value.length / 11
    let deg2rad := PI_NUMBER / 180
    let nums := fun i =>
      (parseNine parse (groupTokens value i)).getD
        ((0, 0, 0), (0, 0, 0), (0, 0, 0))
    ({ nMarker_PerBound := n
       Marker_PerBound :=
         some ((List.range n).map (fun i => (groupTokens value i).getD 0 ""))
       Marker_PerDonor :=
         some ((List.range n).map (fun i => (groupTokens value i).getD 1 ""))
       Periodic_RotCenter := some ((List.range n).map (fun i => (nums i).1))
       Periodic_RotAngles :=
         some ((List.range n).map (fun i => vscale deg2rad (nums i).2.1))
       Periodic_Translation :=
         some ((List.range n).map (fun i => (nums i).2.2)) }, none)

/-- The design-variable type codes read from `Design_Variable_` by the
switch of lines 3584-3611; `UNKNOWN` stands for any value outside the
enum (the `default` case). -/
inductive DVKind where
  | FFD_SETTING
  | FFD_CONTROL_POINT_2D
  | FFD_CAMBER_2D
  | FFD_THICKNESS_2D
  | HICKS_HENNE
  | SPHERICAL
  | COSINE_BUMP
  | FOURIER
  | DISPLACEMENT
  | ROTATION
  | NACA_4DIGITS
  | PARABOLIC
  | OBSTACLE
  | AIRFOIL
  | STRETCH
  | FFD_CONTROL_POINT
  | FFD_DIHEDRAL_ANGLE
  | FFD_TWIST_ANGLE
  | FFD_ROTATION
  | FFD_CAMBER
  | FFD_THICKNESS
  | SURFACE_FILE
  | UNKNOWN
  deriving DecidableEq

/-- The `nParamDV` assignment of the switch (lines 3584-3611); `none`
is the `default` case, which prints an error but keeps the previous
`nParamDV` value and continues. -/
def nParamDVof : DVKind → Option ℕ
  | .FFD_SETTING => some 0
  | .FFD_CONTROL_POINT_2D => some 5
  | .FFD_CAMBER_2D => some 2
  | .FFD_THICKNESS_2D => some 2
  | .HICKS_HENNE => some 2
  | .SPHERICAL => some 3
  | .COSINE_BUMP => some 3
  | .FOURIER => some 3
  | .DISPLACEMENT => some 3
  | .ROTATION => some 6
  | .NACA_4DIGITS => some 3
  | .PARABOLIC => some 2
  | .OBSTACLE => some 2
  | .AIRFOIL => some 2
  | .STRETCH => some 2
  | .FFD_CONTROL_POINT => some 7
  | .FFD_DIHEDRAL_ANGLE => some 7
  | .FFD_TWIST_ANGLE => some 7
  | .FFD_ROTATION => some 7
  | .FFD_CAMBER => some 3
  | .FFD_THICKNESS => some 3
  | .SURFACE_FILE => some 0
  | .UNKNOWN => none

/-- State referenced by `CDVParamOptionRef` (lines 3517-3520): the
design-variable count, the parameter rows, and the type array that
"should already be allocated". -/
structure DVParamState where
  nDV : ℕ
  ParamDV : Option (List (List ℝ))
  Design_Variable : Option (List DVKind)

/-- The semicolon count of lines 3544-3557: the number of `";"` tokens,
minus one if both ends are `";"`, plus one if neither end is.  The C++
indexes `value[0]` and `value[value.size()-1]`, which is undefined for
an empty list; callers pass a nonempty list. -/
def nDVcount (value : List String) : ℕ :=
  let c := value.countP (fun t => t == ";")
  let c1 :=
    if value.headD "" = ";" ∧ value.getLastD "" = ";" then c - 1 else c
  if value.headD "" ≠ ";" ∧ value.getLastD "" ≠ ";" then c1 + 1 else c1

/-- The parameter-reading loop of lines 3580-3626, one recursive step
per design variable.  `idx` is the running token index `i`, `prevParam`
the `nParamDV` value carried over from the previous iteration (read by
the `default` case), `remaining` the number of design variables still to
process (`*nDV_ - iDV`).  Numeric reads have no failure check in this
code, so a failed parse is modelled as 0.  A missing `";"` between
variables prints and throws; the rows built so far are kept, matching
the partially-written `ParamDV` at the throw. -/
def dvReadLoop (parse : String → Option ℝ) (value : List String) :
    List DVKind → ℕ → ℕ → ℕ → List (List ℝ) × Option String
  | [], _, _, _ => ([], none)
  | kind :: rest, idx, prevParam, remaining =>
    let nP := (nParamDVof kind).getD prevParam
    let row :=
      (List.range nP).map (fun j => (parse (value.getD (idx + j) "")).getD 0)
    let idx2 := idx + nP
    if 1 < remaining then
      if value.getD idx2 "" ≠ ";" then
        ([row],
         some ("Error in CDVParamOptionRef::SetValue(): " ++
           "a design variable in the configuration file " ++
           "has the wrong number of parameters"))
      else
        let res := dvReadLoop parse value rest (idx2 + 1) nP (remaining - 1)
        (row :: res.1, res.2)
    else ([row], none)

/-- `CDVParamOptionRef::SetValue` (lines 3541-3627): sets `*nDV_` from
the semicolon count, then — before allocating `ParamDV` — prints and
throws if the count is positive while `Design_Variable` is still `NULL`
(the throw is modelled as a `some` message next to the state as left at
the throw); otherwise allocates `ParamDV` and runs the reading loop over
the first `*nDV_` entries of `Design_Variable`. -/
def CDVParamOptionRef.SetValue (parse : String → Option ℝ)
    (s : DVParamState) (value : List String) :
    DVParamState × Option String :=
  let n := nDVcount value
  if 0 < n ∧ s.Design_Variable = none then
    ({ s with nDV := n },
     some ("Error in CDVParamOptionRef::SetValue(): " ++
       "Design_Variable array has not been allocated. " ++
       "Check that DV_KIND appears before DV_PARAM in configuration file."))
  else
    let kinds := (s.Design_Variable.getD []).take n
    let res := dvReadLoop parse value kinds 0 0 n
    ({ s with nDV := n, ParamDV := some res.1 }, res.2)

/- ------------------------------------------------------------------ -/
/- Theorems on the option classes                                      -/
/- ------------------------------------------------------------------ -/

/-- C5 counterexample: on the empty value list the claim's error
condition ("more than one element, or single element unparseable") is
false, yet `COptionDouble::SetValue` returns a nonempty message (and
leaves the field unchanged), so the claimed "exactly when" fails. -/
theorem double_setvalue_empty_counterexample :
    ¬ doubleClaimErrCond (fun _ => some 1) [] ∧
    (COptionDouble.SetValue (fun _ => some 1) "OPT" 0 []).2 ≠ "" ∧
    (COptionDouble.SetValue (fun _ => some 1) "OPT" 0 []).1 = 0 := by
  refine ⟨?_, ?_, rfl⟩
  · simp [doubleClaimErrCond]
  · decide

/-- C5 (amended): `COptionDouble::SetValue` returns a nonempty message
(with the field unchanged) exactly when the value list does NOT have
exactly one element or its single element does not parse; otherwise it
assigns the parsed value and returns the empty string. -/
theorem double_setvalue_raises_iff (parse : String → Option ℝ)
    (name : String) (field : ℝ) (v : List String) :
    ((COptionDouble.SetValue parse name field v).2 ≠ "" ↔
      v.length ≠ 1 ∨ parse (v.headD "") = none) ∧
    ((COptionDouble.SetValue parse name field v).2 ≠ "" →
      (COptionDouble.SetValue parse name field v).1 = field) ∧
    (∀ val : ℝ, v.length = 1 → parse (v.headD "") = some val →
      COptionDouble.SetValue parse name field v = (val, "")) := by
  have heq : COptionDouble.SetValue parse name field v =
      if v.length = 1 then
        match parse (v.headD "") with
        | some val => (val, "")
        | none => (field, badValue v "double" name)
      else (field, name ++ ": multiple values for type " ++ "double") := by
    unfold COptionDouble.SetValue optionCheckMultipleValues
    by_cases hv : v.length = 1
    · simp [hv]
    · have hmsg : ¬ (name ++ ": multiple values for type " ++ "double") = "" :=
        str_append_ne _ _ (by decide)
      simp [hv, hmsg]
  rw [heq]
  by_cases hv : v.length = 1
  · cases hp : parse (v.headD "") with
    | some val => simp [hv, hp]
    | none =>
      have hbad : ¬ badValue v "double" name = "" := by
        unfold badValue
        exact str_append_ne _ _ (by decide)
      simp [hv, hp, hbad]
  · have hmsg : ¬ (name ++ ": multiple values for type " ++ "double") = "" :=
      str_append_ne _ _ (by decide)
    simp [hv, hmsg]

/-- Witness for `double_setvalue_raises_iff`: a single parsable token is
assigned with the empty message returned. -/
theorem double_setvalue_raises_iff_witness :
    COptionDouble.SetValue (fun _ => some 1) "OPT" 0 ["x"] = (1, "") :=
  (double_setvalue_raises_iff (fun _ => some 1) "OPT" 0 ["x"]).2.2 1
    (by decide) rfl

/-- C6 counterexample: with `nDV = 5` initially, a one-token value and a
`NULL` `Design_Variable`, the call throws as claimed, but the state is
NOT unchanged: `*nDV_` has already been overwritten with the semicolon
count 1. -/
theorem dvparam_counterexample :
    (CDVParamOptionRef.SetValue (fun _ => some 1)
        ⟨5, none, none⟩ ["1.0"]).2 ≠ none ∧
    (CDVParamOptionRef.SetValue (fun _ => some 1)
        ⟨5, none, none⟩ ["1.0"]).1.nDV = 1 ∧ (1 : ℕ) ≠ 5 := by
  refine ⟨?_, rfl, by decide⟩
  intro h
  exact absurd (congrArg Option.isSome h) (by decide)

/-- C6 (amended): when the semicolon count is positive and
`Design_Variable` is `NULL`, `CDVParamOptionRef::SetValue` reports the
error and throws before allocating `ParamDV`: `ParamDV` and
`Design_Variable` are unchanged, while `nDV` has been set to the count. -/
theorem dvparam_throw_unallocated (parse : String → Option ℝ)
    (s : DVParamState) (value : List String)
    (hne : value ≠ []) (hpos : 0 < nDVcount value)
    (hnull : s.Design_Variable = none) :
    CDVParamOptionRef.SetValue parse s value =
      ({ s with nDV := nDVcount value },
       some ("Error in CDVParamOptionRef::SetValue(): " ++
         "Design_Variable array has not been allocated. " ++
         "Check that DV_KIND appears before DV_PARAM in configuration file.")) ∧
    (CDVParamOptionRef.SetValue parse s value).1.ParamDV = s.ParamDV ∧
    (CDVParamOptionRef.SetValue parse s value).1.Design_Variable =
      s.Design_Variable := by
  unfold CDVParamOptionRef.SetValue
  simp [hpos, hnull]

/-- Witness for `dvparam_throw_unallocated` at a concrete state. -/
theorem dvparam_throw_unallocated_witness :
    (CDVParamOptionRef.SetValue (fun _ => some 1)
        ⟨0, none, none⟩ ["1.0"]).1.ParamDV = none :=
  (dvparam_throw_unallocated (fun _ => some 1) ⟨0, none, none⟩ ["1.0"]
      (by decide) (by decide) rfl).2.1

/-- C10: the single token `NONE` means "no markers": `COptionPeriodic`
succeeds with count 0 and all five arrays `NULL`; `CMarkerOptionRef`
sets the count to 0; an empty list makes `CMarkerOptionRef` print and
throw. -/
theorem none_token_marker_semantics (parse : String → Option ℝ)
    (name : String) (s : MarkerRefState) :
    COptionPeriodic.SetValue parse name ["NONE"] =
      (PeriodicOptState.null, "") ∧
    CMarkerOptionRef.SetValue s ["NONE"] =
      ({ marker := some ["NONE"], num_marker := 0 }, none) ∧
    (CMarkerOptionRef.SetValue s []).1 = s ∧
    (CMarkerOptionRef.SetValue s []).2 =
      some ("Error in CMarkerOptionRef::SetValue(): " ++
        "marker option in config file with no value") := by
  refine ⟨rfl, ?_, rfl, rfl⟩
  simp [CMarkerOptionRef.SetValue]

/-- C7 counterexample: `["NONE", "X"]` has an entry count not divisible
by 11 and is not the single token `NONE`, yet `CMarkerPeriodicRef::
SetValue` does not reject it: it sets the count to 0 and returns without
an error. -/
theorem marker_periodic_none_first_counterexample :
    (["NONE", "X"].length % 11 ≠ 0) ∧ (["NONE", "X"] ≠ ["NONE"]) ∧
    CMarkerPeriodicRef.SetValue (fun _ => some 1)
        ⟨7, none, none, none, none, none⟩ ["NONE", "X"] =
      (⟨0, none, none, none, none, none⟩, none) := by
  refine ⟨by decide, by decide, rfl⟩

/-- C7 (amended): a value whose entry count is not a multiple of 11 is
rejected by `CMarkerPeriodicRef::SetValue` (arrays still `NULL`) when
additionally its FIRST entry is not `NONE` — with a `NONE` first entry
it instead succeeds with count 0 — and by `COptionPeriodic::SetValue`
when it is not the single token `NONE`, which resets the state and
returns the message ending in "must have a number of entries divisible
by 11". -/
theorem periodic_wrong_count_rejection (parse : String → Option ℝ)
    (name : String) (s : MarkerPeriodicRefState) (value : List String)
    (hmod : value.length % 11 ≠ 0)
    (hnull : s.Marker_PerBound = none ∧ s.Marker_PerDonor = none ∧
      s.Periodic_RotCenter = none ∧ s.Periodic_RotAngles = none ∧
      s.Periodic_Translation = none) :
    (value.headD "" ≠ "NONE" →
      CMarkerPeriodicRef.SetValue parse s value =
        (s, some ("Error in CMarkerPeriodicRef::SetValue(): " ++
          "incorrect number of MARKER_PERIODIC parameters in the configuration file."))) ∧
    (value.headD "" = "NONE" →
      CMarkerPeriodicRef.SetValue parse s value =
        ({ s with nMarker_PerBound := 0 }, none)) ∧
    (¬ (value.length = 1 ∧ value.headD "" = "NONE") →
      COptionPeriodic.SetValue parse name value =
        (PeriodicOptState.null,
          name ++ ": must have a number of entries divisible by 11") ∧
      ∃ p : String, (COptionPeriodic.SetValue parse name value).2 =
        p ++ "must have a number of entries divisible by 11") := by
  obtain ⟨h1, h2, h3, h4, h5⟩ := hnull
  refine ⟨?_, ?_, ?_⟩
  · intro hhead
    have hhead2 : ¬ value.head?.getD "" = "NONE" := by
      simpa [List.headD_eq_head?_getD] using hhead
    unfold CMarkerPeriodicRef.SetValue
    simp [h1, h2, h3, h4, h5, hmod, hhead2]
  · intro hhead
    have hhead2 : value.head?.getD "" = "NONE" := by
      simpa [List.headD_eq_head?_getD] using hhead
    unfold CMarkerPeriodicRef.SetValue
    simp [h1, h2, h3, h4, h5, hmod, hhead2]
  · intro hnone
    have hsplit : (": must have a number of entries divisible by 11" :
        String) = ": " ++ "must have a number of entries divisible by 11" :=
      by decide
    unfold COptionPeriodic.SetValue
    simp only [hnone, if_neg, hmod, ite_not, if_false]
    constructor
    · simp [hmod, hnone]
    · refine ⟨name ++ ": ", ?_⟩
      simp [hmod, hnone, hsplit, String.append_assoc]

/-- Witness for `periodic_wrong_count_rejection` at a concrete value. -/
theorem periodic_wrong_count_rejection_witness :
    (CMarkerPeriodicRef.SetValue (fun _ => some 1)
        ⟨0, none, none, none, none, none⟩ ["a", "b"]).2 =
      some ("Error in CMarkerPeriodicRef::SetValue(): " ++
        "incorrect number of MARKER_PERIODIC parameters in the configuration file.") := by
  have h := (periodic_wrong_count_rejection (fun _ => some 1) "X"
      ⟨0, none, none, none, none, none⟩ ["a", "b"] (by decide)
      ⟨rfl, rfl, rfl, rfl, rfl⟩).1 (by decide)
  exact congrArg Prod.snd h

/- ------------------------------------------------------------------ -/
/- C4: mirrored periodic entries and the transform round trip          -/
/- ------------------------------------------------------------------ -/

/-- Scaling by a negated factor is the negated scaling. -/
theorem vscale_neg (r : ℝ) (v : Vec3) : vscale (-r) v = -(vscale r v) := by
  obtain ⟨v1, v2, v3⟩ := v
  simp [vscale, Prod.ext_iff]

/-- Scaling by `-1` is negation (`*= -1.0` on each component). -/
theorem vscale_neg_one (v : Vec3) : vscale (-1) v = -v := by
  obtain ⟨v1, v2, v3⟩ := v
  simp [vscale, Prod.ext_iff]

/-- `getD` of a map over `List.range`. -/
theorem getD_map_range {α : Type} (f : ℕ → α) (k i : ℕ) (d : α)
    (h : i < k) : ((List.range k).map f).getD i d = f i := by
  rw [List.getD_eq_getElem?_getD, List.getElem?_map, List.getElem?_range h]
  rfl

/-- `PI_NUMBER` is π. -/
theorem PI_NUMBER_eq_pi : PI_NUMBER = Real.pi := by
  unfold PI_NUMBER
  rw [Real.arctan_one]
  ring

/-- Undoing a single-axis rotation with the negated angles and negated
translation returns any vector to its original value when the
translation is zero. -/
theorem roundtrip_single_axis (c t a x : Vec3) (ht : t = 0)
    (ha : singleAxis a) :
    periodicTransform c (-a) (-t) (periodicTransform c a t x) = x := by
  subst ht
  obtain ⟨c1, c2, c3⟩ := c
  obtain ⟨a1, a2, a3⟩ := a
  obtain ⟨x1, x2, x3⟩ := x
  have hpyth : ∀ y : ℝ, Real.sin y ^ 2 + Real.cos y ^ 2 = 1 :=
    Real.sin_sq_add_cos_sq
  rcases ha with ⟨g1, g2⟩ | ⟨g1, g2⟩ | ⟨g1, g2⟩ <;>
    simp only at g1 g2 <;> subst g1 <;> subst g2 <;>
    simp [periodicTransform, rotVec, rotX, rotY, rotZ, Prod.ext_iff,
      Real.cos_neg, Real.sin_neg, Real.cos_zero, Real.sin_zero]
  · exact ⟨by linear_combination (x1 - c1) * hpyth a3,
      by linear_combination (x2 - c2) * hpyth a3⟩
  · exact ⟨by linear_combination (x1 - c1) * hpyth a2,
      by linear_combination (x3 - c3) * hpyth a2⟩
  · exact ⟨by linear_combination (x2 - c2) * hpyth a1,
      by linear_combination (x3 - c3) * hpyth a1⟩

/-- Evaluation of `COptionPeriodic::SetValue` on a value list of `11*k`
entries whose numeric tokens all parse: the success state, spelled out. -/
theorem periodic_setvalue_success_eq (parse : String → Option ℝ)
    (name : String) (vals : List String) (k : ℕ)
    (hlen : vals.length = 11 * k)
    (hparse : ∀ i, i < k → (parseNine parse (groupTokens vals i)).isSome) :
    COptionPeriodic.SetValue parse name vals =
      ({ size := 2 * k
         marker_bound := some
           ((List.range k).map (fun i => (groupTokens vals i).getD 0 "") ++
            (List.range k).map (fun i => (groupTokens vals i).getD 1 ""))
         marker_donor := some
           ((List.range k).map (fun i => (groupTokens vals i).getD 1 "") ++
            (List.range k).map (fun i => (groupTokens vals i).getD 0 ""))
         rot_center := some
           ((List.range k).map (fun i =>
              ((parseNine parse (groupTokens vals i)).getD
                ((0, 0, 0), (0, 0, 0), (0, 0, 0))).1) ++
            (List.range k).map (fun i =>
              ((parseNine parse (groupTokens vals i)).getD
                ((0, 0, 0), (0, 0, 0), (0, 0, 0))).1))
         rot_angles := some
           ((List.range k).map (fun i => vscale (PI_NUMBER / 180)
              ((parseNine parse (groupTokens vals i)).getD
                ((0, 0, 0), (0, 0, 0), (0, 0, 0))).2.1) ++
            (List.range k).map (fun i => vscale (-(PI_NUMBER / 180))
              ((parseNine parse (groupTokens vals i)).getD
                ((0, 0, 0), (0, 0, 0), (0, 0, 0))).2.1))
         translation := some
           ((List.range k).map (fun i =>
              ((parseNine parse (groupTokens vals i)).getD
                ((0, 0, 0), (0, 0, 0), (0, 0, 0))).2.2) ++
            (List.range k).map (fun i => vscale (-1)
              ((parseNine parse (groupTokens vals i)).getD
                ((0, 0, 0), (0, 0, 0), (0, 0, 0))).2.2)) }, "") := by
  have hnone : ¬ (vals.length = 1 ∧ vals.headD "" = "NONE") := by
    rintro ⟨h1, _⟩
    omega
  have hmod : ¬ vals.length % 11 ≠ 0 := by omega
  have hk : vals.length / 11 = k := by omega
  have hall : ((List.range k).all
      (fun i => (parseNine parse (groupTokens vals i)).isSome)) = true := by
    rw [List.all_eq_true]
    intro i hi
    exact hparse i (List.mem_range.mp hi)
  unfold COptionPeriodic.SetValue
  rw [if_neg hnone, if_neg hmod]
  simp only [hk, hall, if_true]

/-- `getD` on the two halves of an appended pair of maps over
`List.range k`. -/
theorem getD_map_range_append {α : Type} (f g : ℕ → α) (d : α) (k i : ℕ)
    (h : i < k) :
    ((List.range k).map f ++ (List.range k).map g).getD i d = f i ∧
    ((List.range k).map f ++ (List.range k).map g).getD (k + i) d = g i := by
  constructor
  · rw [List.getD_append _ _ _ _
      (by simp only [List.length_map, List.length_range]; exact h),
      getD_map_range _ _ _ _ h]
  · rw [List.getD_append_right _ _ _ _
      (by simpa using Nat.le_add_right k i)]
    simp only [List.length_map, List.length_range, Nat.add_sub_cancel_left]
    exact getD_map_range _ _ _ _ h

/-- C4 (amended): on a successful `COptionPeriodic::SetValue` call with
`k*11` entries, 2k entries result; entry `k+i` has the bound and donor
names of entry `i` swapped, the same rotation center, the angles of
entry `i` negated and the translation of entry `i` negated, with angles
converted from degrees to radians in both halves; consequently — when
entry `i`'s translation is zero and its rotation is about a single
coordinate axis — applying the transform of entry `i` and then of its
mirror `k+i` returns any input vector to its original value. -/
theorem periodic_mirror_entries (parse : String → Option ℝ) (name : String)
    (vals : List String) (k : ℕ) (hlen : vals.length = 11 * k)
    (hparse : ∀ i, i < k → (parseNine parse (groupTokens vals i)).isSome) :
    ∃ mb md rc ra tr,
      COptionPeriodic.SetValue parse name vals =
        ({ size := 2 * k, marker_bound := some mb, marker_donor := some md,
           rot_center := some rc, rot_angles := some ra,
           translation := some tr }, "") ∧
      (mb.length = 2 * k ∧ md.length = 2 * k ∧ rc.length = 2 * k ∧
       ra.length = 2 * k ∧ tr.length = 2 * k) ∧
      (∀ i, i < k →
        mb.getD (k + i) "" = md.getD i "" ∧
        md.getD (k + i) "" = mb.getD i "" ∧
        rc.getD (k + i) 0 = rc.getD i 0 ∧
        ra.getD (k + i) 0 = -(ra.getD i 0) ∧
        tr.getD (k + i) 0 = -(tr.getD i 0)) ∧
      (∀ i, i < k → ∀ c a t,
        parseNine parse (groupTokens vals i) = some (c, a, t) →
        mb.getD i "" = (groupTokens vals i).getD 0 "" ∧
        md.getD i "" = (groupTokens vals i).getD 1 "" ∧
        rc.getD i 0 = c ∧
        ra.getD i 0 = vscale (PI_NUMBER / 180) a ∧
        ra.getD (k + i) 0 = vscale (-(PI_NUMBER / 180)) a ∧
        tr.getD i 0 = t) ∧
      (∀ i, i < k → ∀ x : Vec3, tr.getD i 0 = 0 →
        singleAxis (ra.getD i 0) →
        periodicTransform (rc.getD (k + i) 0) (ra.getD (k + i) 0)
            (tr.getD (k + i) 0)
          (periodicTransform (rc.getD i 0) (ra.getD i 0) (tr.getD i 0) x)
          = x) := by
  refine ⟨_, _, _, _, _,
    periodic_setvalue_success_eq parse name vals k hlen hparse,
    ⟨?_, ?_, ?_, ?_, ?_⟩, ?_, ?_, ?_⟩
  · simp [two_mul]
  · simp [two_mul]
  · simp [two_mul]
  · simp [two_mul]
  · simp [two_mul]
  · intro i hi
    refine ⟨?_, ?_, ?_, ?_, ?_⟩
    · rw [(getD_map_range_append _ _ _ _ _ hi).2,
        (getD_map_range_append _ _ _ _ _ hi).1]
    · rw [(getD_map_range_append _ _ _ _ _ hi).2,
        (getD_map_range_append _ _ _ _ _ hi).1]
    · rw [(getD_map_range_append _ _ _ _ _ hi).2,
        (getD_map_range_append _ _ _ _ _ hi).1]
    · rw [(getD_map_range_append _ _ _ _ _ hi).2,
        (getD_map_range_append _ _ _ _ _ hi).1, vscale_neg]
    · rw [(getD_map_range_append _ _ _ _ _ hi).2,
        (getD_map_range_append _ _ _ _ _ hi).1, vscale_neg_one]
  · intro i hi c a t hp
    refine ⟨?_, ?_, ?_, ?_, ?_, ?_⟩
    · rw [(getD_map_range_append _ _ _ _ _ hi).1]
    · rw [(getD_map_range_append _ _ _ _ _ hi).1]
    · rw [(getD_map_range_append _ _ _ _ _ hi).1, hp]
      rfl
    · rw [(getD_map_range_append _ _ _ _ _ hi).1, hp]
      rfl
    · rw [(getD_map_range_append _ _ _ _ _ hi).2, hp]
      rfl
    · rw [(getD_map_range_append _ _ _ _ _ hi).1, hp]
      rfl
  · intro i hi x ht ha
    rw [(getD_map_range_append _ _ _ _ _ hi).2,
      (getD_map_range_append _ _ _ _ _ hi).2,
      (getD_map_range_append _ _ _ _ _ hi).2] at *
    rw [(getD_map_range_append _ _ _ _ _ hi).1,
      (getD_map_range_append _ _ _ _ _ hi).1,
      (getD_map_range_append _ _ _ _ _ hi).1] at *
    rw [vscale_neg, vscale_neg_one]
    exact roundtrip_single_axis _ _ _ x ht ha

/-- A concrete token parser for the counterexample configuration. -/
def parseNum : String → Option ℝ := fun t =>
  if t = "0" then some 0
  else if t = "90" then some 90
  else if t = "1" then some 1
  else none

/-- One periodic-marker group: rotation center at the origin, a 90°
rotation about the z axis, and a unit translation along x. -/
def periodicVals : List String :=
  ["per1", "per2", "0", "0", "0", "0", "0", "90", "1", "0", "0"]

/-- C4 counterexample: `COptionPeriodic::SetValue` succeeds on this
11-entry value, yet applying the rotation/translation of entry 0 and
then of its mirror entry 1 does NOT return the input vector (0,0,0) to
itself: with a 90° z-rotation and a unit x-translation the composite
moves the origin to (-1,-1,0). -/
theorem periodic_roundtrip_counterexample :
    (COptionPeriodic.SetValue parseNum "MARKER_PERIODIC" periodicVals).2
      = "" ∧
    (COptionPeriodic.SetValue parseNum "MARKER_PERIODIC" periodicVals).1.size
      = 2 ∧
    ∃ rc ra tr,
      (COptionPeriodic.SetValue parseNum "MARKER_PERIODIC"
        periodicVals).1.rot_center = some rc ∧
      (COptionPeriodic.SetValue parseNum "MARKER_PERIODIC"
        periodicVals).1.rot_angles = some ra ∧
      (COptionPeriodic.SetValue parseNum "MARKER_PERIODIC"
        periodicVals).1.translation = some tr ∧
      periodicTransform (rc.getD 1 0) (ra.getD 1 0) (tr.getD 1 0)
        (periodicTransform (rc.getD 0 0) (ra.getD 0 0) (tr.getD 0 0)
          ((0 : ℝ), (0 : ℝ), (0 : ℝ))) ≠ ((0 : ℝ), (0 : ℝ), (0 : ℝ)) := by
  have hev := periodic_setvalue_success_eq parseNum "MARKER_PERIODIC"
    periodicVals 1 (by decide)
    (fun i hi => by
      have h0 : i = 0 := by omega
      subst h0
      rfl)
  rw [hev]
  refine ⟨rfl, rfl, _, _, _, rfl, rfl, rfl, ?_⟩
  have hN : parseNine parseNum (groupTokens periodicVals 0) =
      some (((0 : ℝ), (0 : ℝ), (0 : ℝ)), ((0 : ℝ), (0 : ℝ), (90 : ℝ)),
        ((1 : ℝ), (0 : ℝ), (0 : ℝ))) := rfl
  have hang : PI_NUMBER / 180 * 90 = Real.pi / 2 := by
    rw [PI_NUMBER_eq_pi]
    ring
  have hang2 : -(PI_NUMBER / 180) * 90 = -(Real.pi / 2) := by
    rw [PI_NUMBER_eq_pi]
    ring
  intro heq
  simp only [List.range_succ, List.range_zero, List.map_cons, List.map_nil,
    List.nil_append, List.cons_append, hN] at heq
  simp [List.getD, periodicTransform, rotVec, rotX, rotY, rotZ, vscale,
    hang, hang2, Real.cos_neg, Real.sin_neg, Real.cos_pi_div_two,
    Real.sin_pi_div_two, Real.cos_zero, Real.sin_zero, Prod.ext_iff]
    at heq

/-- Witness for `periodic_mirror_entries` on the concrete 11-entry
configuration. -/
theorem periodic_mirror_entries_witness :
    (COptionPeriodic.SetValue parseNum "MARKER_PERIODIC" periodicVals).2
      = "" := by
  obtain ⟨mb, md, rc, ra, tr, heq, -, -, -, -⟩ :=
    periodic_mirror_entries parseNum "MARKER_PERIODIC" periodicVals 1
      (by decide)
      (fun i hi => by
        have h0 : i = 0 := by omega
        subst h0
        rfl)
  rw [heq]

end SU2
